import Mathlib

/-!
Shallow embedding of the license / account-activation core of the
Authentication-System repository (FastAPI + SQLAlchemy backend).

Embedded sources:
- `backend/app/models/models.py` : the `users`, `license` and `license_codes` tables;
- `backend/app/services/license_service.py` : `create_license_code`, `validate_code`, `activate_code`;
- `backend/app/routes/login.py` : the `login` endpoint;
- `backend/app/routes/verify_license.py` : the `verify_license` endpoint;
- `backend/app/routes/license.py` : the `activate_license_code` endpoint wrapper.

Modelling conventions:
- Python `datetime` values are modelled by `DT`: an integer instant (seconds)
  plus an `aware` flag recording whether a `tzinfo` is attached.
  `datetime.now(UTC)` is `⟨now, true⟩`; `.replace(tzinfo=None)` clears the flag;
  `.replace(tzinfo=UTC)` sets it; `timedelta(days=d)` adds `86400 * d` seconds.
  Comparing two datetimes of different awareness raises `TypeError` in Python;
  `DT.pyLt` returns `none` in that case.
- The database is a `DB` record of three lists; SQLAlchemy `first()` after a
  filter is `List.find?`, and mutating the ORM object returned by `first()`
  followed by `commit` is `updateFirst` on the matching list.
- Each stateful operation takes the current state and returns (result, state).
  A raised Python exception is `PyResult.exn`; the `except` blocks of the
  source that roll back the session return the *unchanged* input state.
- The commit of a transaction may itself fail; the `commitOk` parameter of
  `activate_code` models whether the `db.commit()` call succeeds, mirroring
  the source's `try ... except: rollback(); raise`.
- `.isoformat()` serialisation of a returned datetime is abstracted to the
  datetime value itself (the serialisation is injective presentation only).
-/

/-- A Python `datetime`: instant in seconds since an arbitrary epoch, plus
whether the value is timezone-aware (`tzinfo` attached). -/
structure DT where
  t : Int
  aware : Bool
deriving DecidableEq, Repr

/-- Python `<` on datetimes: defined only when both sides have the same
awareness, otherwise Python raises `TypeError` (modelled as `none`). -/
def DT.pyLt (a b : DT) : Option Bool :=
  if a.aware = b.aware then some (decide (a.t < b.t)) else none

/-- Row of the `users` table (`models.py`, class `User`). -/
structure User where
  id : Nat
  username : String
  password : String
  is_active : Bool
  expiration_date : Option DT
deriving DecidableEq, Repr

/-- Row of the `license` table (`models.py`, class `License`): a single
reusable grant key. `is_used` is an Integer column defaulting to 0. -/
structure License where
  id : Nat
  key : String
  is_used : Int
  duration_days : Int
deriving DecidableEq, Repr

/-- Row of the `license_codes` table (`models.py`, class `LicenseCode`).
`expires_at` is always set by the only creation path
(`LicenseService.create_license_code`), so it is modelled as non-optional. -/
structure LicenseCode where
  id : Nat
  code : String
  is_used : Bool
  created_at : DT
  expires_at : DT
  used_by : Option Nat
deriving DecidableEq, Repr

/-- The durable store: the three tables. -/
structure DB where
  users : List User
  licenses : List License
  license_codes : List LicenseCode
deriving DecidableEq, Repr

/-- Update the first element satisfying `p` (the ORM object returned by
`first()` on a filtered select), leaving the rest of the list unchanged. -/
def updateFirst {α : Type} (p : α → Bool) (f : α → α) : List α → List α
  | [] => []
  | x :: xs => if p x then f x :: xs else x :: updateFirst p f xs

/-- Result of a Python call: normal return, or a raised exception. -/
inductive PyResult (α : Type) where
  | ok : α → PyResult α
  | exn : String → PyResult α
deriving DecidableEq, Repr

/-- The credential collaborator (`core/hashing.py`, backed by the external
passlib bcrypt library). The hash is modelled as an injective tagging; only
the round-trip property `verify_password p (hash_password p) = true` is used. -/
def hash_password (password : String) : String :=
  "bcrypt$" ++ password

/-- Verification against a stored digest (`core/hashing.py`). -/
def verify_password (plain_password hashed_password : String) : Bool :=
  hashed_password = hash_password plain_password

/-- `LicenseService.create_license_code` (`license_service.py`).
`generated` is the token produced by `LicenseService.generate_code()` (a
cryptographically random draw, passed in as a parameter); `newId` is the
database-generated primary key. Stores *naive* timestamps:
`current_time = datetime.now(UTC).replace(tzinfo=None)` and
`expires_at = current_time + timedelta(days=duration_days)`. -/
def create_license_code (db : DB) (now : Int) (generated : String) (newId : Nat)
    (duration_days : Int) : PyResult LicenseCode × DB :=
  let current_time : DT := ⟨now, false⟩
  let expires_at : DT := ⟨now + 86400 * duration_days, false⟩
  let lc : LicenseCode :=
    { id := newId, code := generated, is_used := false,
      created_at := current_time, expires_at := expires_at, used_by := none }
  (PyResult.ok lc, { db with license_codes := db.license_codes ++ [lc] })

/-- `LicenseService.validate_code` (`license_service.py`): a read-only check.
The only database interaction is a SELECT, so the state is returned unchanged.
Returns `(is_valid, message, expires_at_echo)`; a `TypeError` from comparing a
timezone-aware stored `expires_at` with the naive `current_time` is re-raised
wrapped by the function's `except` block. -/
def validate_code (db : DB) (now : Int) (code : String) :
    PyResult (Bool × String × Option DT) × DB :=
  match db.license_codes.find? (fun lc => lc.code = code) with
  | none => (PyResult.ok (false, "Invalid license code", none), db)
  | some license_code =>
    if license_code.is_used then
      (PyResult.ok (false, "License code already used", none), db)
    else
      match DT.pyLt license_code.expires_at ⟨now, false⟩ with
      | none =>
        (PyResult.exn "Failed to validate license code: TypeError", db)
      | some true =>
        (PyResult.ok (false, "License code has expired", none), db)
      | some false =>
        (PyResult.ok (true, "License code is valid", some license_code.expires_at), db)

/-- `LicenseService.activate_code` (`license_service.py`). Re-runs
`validate_code`, re-fetches the code row and fetches the user by primary key,
then performs the four mutations (code `is_used`/`used_by`, user
`is_active`/`expiration_date`) and commits them in one `db.commit()`.
`commitOk` models whether that commit succeeds; on any raised exception the
`except` block rolls the session back, so the unchanged state is returned. -/
def activate_code (db : DB) (now : Int) (code : String) (user_id : Nat)
    (commitOk : Bool) : PyResult (Bool × String × Option DT) × DB :=
  match (validate_code db now code).1 with
  | PyResult.exn msg => (PyResult.exn ("Failed to activate license code: " ++ msg), db)
  | PyResult.ok (is_valid, message, _) =>
    if ¬ is_valid then
      (PyResult.ok (false, message, none), db)
    else
      match db.license_codes.find? (fun lc => lc.code = code),
            db.users.find? (fun u => u.id = user_id) with
      | some license_code, some _user =>
        let db' : DB :=
          { db with
            license_codes :=
              updateFirst (fun lc => lc.code = code)
                (fun lc => { lc with is_used := true, used_by := some user_id })
                db.license_codes,
            users :=
              updateFirst (fun u => u.id = user_id)
                (fun u => { u with is_active := true,
                                   expiration_date := some license_code.expires_at })
                db.users }
        if commitOk then
          (PyResult.ok (true, "License activated successfully",
            some license_code.expires_at), db')
        else
          (PyResult.exn "Failed to activate license code: commit failed", db)
      | _, _ =>
        (PyResult.ok
          (false, "Internal error: License code or user not found after validation.", none),
          db)

/-- Outcome of the `login` endpoint (`routes/login.py`): a raised
`HTTPException` (status, detail), a `JSONResponse` carrying `detail` and
`user_id`, or the success payload. -/
inductive LoginResult where
  | httpError (status : Nat) (detail : String)
  | jsonError (status : Nat) (detail : String) (user_id : Nat)
  | success (message : String) (expiration_date : Option DT)
deriving DecidableEq, Repr

/-- The `login` endpoint (`routes/login.py`). Finds the user by username,
verifies the password, checks `is_active`, then lazily expires the account:
the stored expiration is made aware via `.replace(tzinfo=UTC)` and compared
with `datetime.now(UTC)`; if past, `is_active` is cleared, `expiration_date`
nulled and the change committed. A `TypeError` (impossible here: both sides
of the comparison are aware) would be caught by the outer `except` and
surface as a 500. -/
def login (db : DB) (now : Int) (username password : String) : LoginResult × DB :=
  match db.users.find? (fun u => u.username = username) with
  | none => (LoginResult.httpError 401 "Invalid Credentials", db)
  | some db_user =>
    if ¬ verify_password password db_user.password then
      (LoginResult.httpError 401 "Invalid Credentials", db)
    else if ¬ db_user.is_active then
      (LoginResult.jsonError 403 "Account not activated. Please enter activation code."
        db_user.id, db)
    else
      match db_user.expiration_date with
      | some expiration_date =>
        let aware_expiration_date : DT := { expiration_date with aware := true }
        match DT.pyLt aware_expiration_date ⟨now, true⟩ with
        | none => (LoginResult.httpError 500 "Internal Server Error", db)
        | some true =>
          (LoginResult.jsonError 403 "Subscription expired. Please renew your license."
            db_user.id,
            { db with
              users :=
                updateFirst (fun u => u.username = username)
                  (fun u => { u with is_active := false, expiration_date := none })
                  db.users })
        | some false =>
          (LoginResult.success "Login Successful" (some expiration_date), db)
      | none => (LoginResult.success "Login Successful" none, db)

/-- Outcome of the `verify_license` endpoint (`routes/verify_license.py`). -/
inductive VerifyResult where
  | httpError (status : Nat) (detail : String)
  | success (message : String) (expires_at : DT)
deriving DecidableEq, Repr

/-- The `verify_license` endpoint (`routes/verify_license.py`): redeems the
shared grant key. Note that the stored `user.expiration_date` is
`datetime.now(UTC) + timedelta(days=duration_days)` — a timezone-AWARE value
(no `.replace(tzinfo=None)`), unlike every other persisted timestamp. -/
def verify_license (db : DB) (now : Int) (username key : String) : VerifyResult × DB :=
  match db.licenses.find? (fun l => l.key = key) with
  | none => (VerifyResult.httpError 400 "License key is invalid", db)
  | some license_entry =>
    if license_entry.is_used = 1 then
      (VerifyResult.httpError 400 "License key has already been used", db)
    else
      match db.users.find? (fun u => u.username = username) with
      | none => (VerifyResult.httpError 404 "User not found", db)
      | some _user =>
        let expiration : DT := ⟨now + 86400 * license_entry.duration_days, true⟩
        (VerifyResult.success "Account activated successfully" expiration,
          { db with
            users :=
              updateFirst (fun u => u.username = username)
                (fun u => { u with is_active := true, expiration_date := some expiration })
                db.users,
            licenses :=
              updateFirst (fun l => l.key = key)
                (fun l => { l with is_used := 1 })
                db.licenses })

/-- Outcome of a license route (`routes/license.py`). -/
inductive RouteResult where
  | ok (message : String) (expires_at : Option DT)
  | httpError (status : Nat) (detail : String)
deriving DecidableEq, Repr

/-- The `activate_license_code` endpoint (`routes/license.py`): delegates to
`LicenseService.activate_code` and maps a failed result to HTTP 400 with the
service message as detail. An uncaught service exception becomes FastAPI's
generic 500. -/
def activate_license_code (db : DB) (now : Int) (code : String) (user_id : Nat)
    (commitOk : Bool) : RouteResult × DB :=
  match activate_code db now code user_id commitOk with
  | (PyResult.ok (true, message, expires_at), db') => (RouteResult.ok message expires_at, db')
  | (PyResult.ok (false, message, _), db') => (RouteResult.httpError 400 message, db')
  | (PyResult.exn _, db') => (RouteResult.httpError 500 "Internal Server Error", db')

/-! ### Helper lemmas and concrete example states -/

/-- Updating the first `p`-match of a list keeps it the first `p`-match,
provided the update preserves `p`. -/
theorem find?_updateFirst {α : Type} (p : α → Bool) (f : α → α) (l : List α) (x : α)
    (hx : l.find? p = some x) (hf : p (f x) = true) :
    (updateFirst p f l).find? p = some (f x) := by
  induction l with
  | nil => simp at hx
  | cons y ys ih =>
    by_cases hy : p y
    · rw [List.find?_cons_of_pos _ hy] at hx
      injection hx with hx
      subst hx
      simp only [updateFirst, hy, if_true]
      exact List.find?_cons_of_pos _ hf
    · rw [List.find?_cons_of_neg _ hy] at hx
      simp only [updateFirst, hy, if_false, Bool.false_eq_true]
      rw [List.find?_cons_of_neg _ hy]
      exact ih hx

/-- The result component of `validate_code` when the stored code exists, is
unused and has a naive, unexpired `expires_at`. -/
theorem validate_code_fst_valid (db : DB) (now : Int) (code : String) (lc : LicenseCode)
    (hfind : db.license_codes.find? (fun c => c.code = code) = some lc)
    (hunused : lc.is_used = false)
    (hnaive : lc.expires_at.aware = false)
    (hunexpired : ¬ lc.expires_at.t < now) :
    (validate_code db now code).1 =
      PyResult.ok (true, "License code is valid", some lc.expires_at) := by
  simp [validate_code, hfind, hunused, DT.pyLt, hnaive, hunexpired]

/-- The result component of `validate_code` on an already-used code. -/
theorem validate_code_fst_used (db : DB) (now : Int) (code : String) (lc : LicenseCode)
    (hfind : db.license_codes.find? (fun c => c.code = code) = some lc)
    (hused : lc.is_used = true) :
    (validate_code db now code).1 =
      PyResult.ok (false, "License code already used", none) := by
  simp [validate_code, hfind, hused]

/-- An unused license code, created at 0, expiring at 100, naive timestamps. -/
def lcFresh : LicenseCode :=
  { id := 1, code := "CODE1", is_used := false,
    created_at := ⟨0, false⟩, expires_at := ⟨100, false⟩, used_by := none }

/-- The same code after redemption by user 7. -/
def lcUsed : LicenseCode :=
  { id := 1, code := "CODE1", is_used := true,
    created_at := ⟨0, false⟩, expires_at := ⟨100, false⟩, used_by := some 7 }

/-- A never-activated account. -/
def aliceInactive : User :=
  { id := 7, username := "alice", password := hash_password "pw",
    is_active := false, expiration_date := none }

/-- An active account whose expiration lies in the past (at `now = 50`). -/
def aliceStale : User :=
  { id := 7, username := "alice", password := hash_password "pw",
    is_active := true, expiration_date := some ⟨10, false⟩ }

/-- An inactive account that still carries a stale past expiration. -/
def aliceInactiveStale : User :=
  { id := 7, username := "alice", password := hash_password "pw",
    is_active := false, expiration_date := some ⟨10, false⟩ }

/-- An unused shared grant key of 30 days. -/
def grantFresh : License :=
  { id := 1, key := "KEY1", is_used := 0, duration_days := 30 }

/-- The grant key after consumption. -/
def grantUsed : License :=
  { id := 1, key := "KEY1", is_used := 1, duration_days := 30 }

/-- Empty store. -/
def dbEmpty : DB := { users := [], licenses := [], license_codes := [] }

/-- Store with one inactive account and one fresh code. -/
def dbFresh : DB := { users := [aliceInactive], licenses := [], license_codes := [lcFresh] }

/-- Store with one inactive account and one redeemed code. -/
def dbRedeemed : DB := { users := [aliceInactive], licenses := [], license_codes := [lcUsed] }

/-- Store with a fresh code but no account. -/
def dbNoUser : DB := { users := [], licenses := [], license_codes := [lcFresh] }

/-- Store with an active but expired account. -/
def dbStale : DB := { users := [aliceStale], licenses := [], license_codes := [] }

/-- Store with an inactive account carrying a stale expiration. -/
def dbInactiveStale : DB :=
  { users := [aliceInactiveStale], licenses := [], license_codes := [] }

/-- Store with an inactive account and a fresh grant key. -/
def dbGrant : DB := { users := [aliceInactive], licenses := [grantFresh], license_codes := [] }

/-- Store with an inactive account and a consumed grant key. -/
def dbGrantUsed : DB := { users := [aliceInactive], licenses := [grantUsed], license_codes := [] }

/-! ### Claims -/

/-- C3: `Validate(code)` never mutates any stored state, and calling it again
on the resulting state with the same clock and no intervening `Activate`
returns the same result (in particular `is_used` of every stored code is
unchanged). -/
theorem validate_code_no_mutation (db : DB) (now : Int) (code : String) :
    (validate_code db now code).2 = db ∧
    validate_code (validate_code db now code).2 now code = validate_code db now code ∧
    ((validate_code db now code).2).license_codes = db.license_codes := by
  have h2 : (validate_code db now code).2 = db := by
    rcases hfind : db.license_codes.find? (fun lc => lc.code = code) with _ | lc
    · simp [validate_code, hfind]
    · cases hb : lc.is_used with
      | true => simp [validate_code, hfind, hb]
      | false =>
        rcases hp : DT.pyLt lc.expires_at ⟨now, false⟩ with _ | b
        · simp [validate_code, hfind, hb, hp]
        · cases b <;> simp [validate_code, hfind, hb, hp]
  exact ⟨h2, by rw [h2], by rw [h2]⟩

/-- C4: on a store whose persisted code timestamps follow the naive-UTC
convention, `Validate(code)` returns exactly one of four outcomes, decided in
this order: `NotFound` when no stored code matches, `AlreadyUsed` when the
matching code has `is_used = true`, `Expired` when its `expires_at` is earlier
than the current time, and otherwise `Valid` with the stored `expires_at`
echoed back; only the `Valid` outcome carries an expiration value. -/
theorem validate_code_four_outcomes (db : DB) (now : Int) (code : String)
    (hnaive : ∀ lc ∈ db.license_codes, lc.expires_at.aware = false) :
    (db.license_codes.find? (fun c => c.code = code) = none ∧
      (validate_code db now code).1 = PyResult.ok (false, "Invalid license code", none)) ∨
    (∃ lc, db.license_codes.find? (fun c => c.code = code) = some lc ∧
      lc.is_used = true ∧
      (validate_code db now code).1 = PyResult.ok (false, "License code already used", none)) ∨
    (∃ lc, db.license_codes.find? (fun c => c.code = code) = some lc ∧
      lc.is_used = false ∧ lc.expires_at.t < now ∧
      (validate_code db now code).1 = PyResult.ok (false, "License code has expired", none)) ∨
    (∃ lc, db.license_codes.find? (fun c => c.code = code) = some lc ∧
      lc.is_used = false ∧ ¬ lc.expires_at.t < now ∧
      (validate_code db now code).1 =
        PyResult.ok (true, "License code is valid", some lc.expires_at)) := by
  rcases hfind : db.license_codes.find? (fun c => c.code = code) with _ | lc
  · exact Or.inl ⟨hfind, by simp [validate_code, hfind]⟩
  · have haware := hnaive lc (List.mem_of_find?_eq_some hfind)
    cases hb : lc.is_used with
    | true =>
      exact Or.inr (Or.inl ⟨lc, hfind, hb, by simp [validate_code, hfind, hb]⟩)
    | false =>
      by_cases hexp : lc.expires_at.t < now
      · refine Or.inr (Or.inr (Or.inl ⟨lc, hfind, hb, hexp, ?_⟩))
        simp [validate_code, hfind, hb, DT.pyLt, haware, hexp]
      · refine Or.inr (Or.inr (Or.inr ⟨lc, hfind, hb, hexp, ?_⟩))
        simp [validate_code, hfind, hb, DT.pyLt, haware, hexp]

/-- Witness for C4 on a concrete store: the fresh unexpired code lands in the
`Valid` outcome of the four-way split. -/
theorem validate_code_four_outcomes_witness :
    (∀ lc ∈ dbFresh.license_codes, lc.expires_at.aware = false) ∧
    ((dbFresh.license_codes.find? (fun c => c.code = "CODE1") = none ∧
      (validate_code dbFresh 50 "CODE1").1 = PyResult.ok (false, "Invalid license code", none)) ∨
    (∃ lc, dbFresh.license_codes.find? (fun c => c.code = "CODE1") = some lc ∧
      lc.is_used = true ∧
      (validate_code dbFresh 50 "CODE1").1 = PyResult.ok (false, "License code already used", none)) ∨
    (∃ lc, dbFresh.license_codes.find? (fun c => c.code = "CODE1") = some lc ∧
      lc.is_used = false ∧ lc.expires_at.t < 50 ∧
      (validate_code dbFresh 50 "CODE1").1 = PyResult.ok (false, "License code has expired", none)) ∨
    (∃ lc, dbFresh.license_codes.find? (fun c => c.code = "CODE1") = some lc ∧
      lc.is_used = false ∧ ¬ lc.expires_at.t < 50 ∧
      (validate_code dbFresh 50 "CODE1").1 =
        PyResult.ok (true, "License code is valid", some lc.expires_at))) :=
  ⟨by decide, validate_code_four_outcomes dbFresh 50 "CODE1" (by decide)⟩

/-- C1: for a license code that passes the validity checks (exists, unused,
naive timestamp, not yet expired) and an existing account,
`Activate(code, accountId)` marks the code used, links it to the account,
activates the account with the code's stored `expires_at`, commits all four
mutations as one unit and returns that expiration; when the commit step
fails, none of the four mutations persists (the rolled-back state is the
unchanged input state). -/
theorem activate_code_atomic (db : DB) (now : Int) (code : String) (user_id : Nat)
    (lc : LicenseCode) (u : User)
    (hfind : db.license_codes.find? (fun c => c.code = code) = some lc)
    (hunused : lc.is_used = false)
    (hnaive : lc.expires_at.aware = false)
    (hunexpired : ¬ lc.expires_at.t < now)
    (huser : db.users.find? (fun v => v.id = user_id) = some u) :
    activate_code db now code user_id true =
      (PyResult.ok (true, "License activated successfully", some lc.expires_at),
       { db with
         license_codes :=
           updateFirst (fun c => c.code = code)
             (fun c => { c with is_used := true, used_by := some user_id })
             db.license_codes,
         users :=
           updateFirst (fun v => v.id = user_id)
             (fun v => { v with is_active := true, expiration_date := some lc.expires_at })
             db.users }) ∧
    (activate_code db now code user_id true).2.license_codes.find?
        (fun c => c.code = code) =
      some { lc with is_used := true, used_by := some user_id } ∧
    (activate_code db now code user_id true).2.users.find?
        (fun v => v.id = user_id) =
      some { u with is_active := true, expiration_date := some lc.expires_at } ∧
    activate_code db now code user_id false =
      (PyResult.exn "Failed to activate license code: commit failed", db) := by
  have hval := validate_code_fst_valid db now code lc hfind hunused hnaive hunexpired
  have htrue : activate_code db now code user_id true =
      (PyResult.ok (true, "License activated successfully", some lc.expires_at),
       { db with
         license_codes :=
           updateFirst (fun c => c.code = code)
             (fun c => { c with is_used := true, used_by := some user_id })
             db.license_codes,
         users :=
           updateFirst (fun v => v.id = user_id)
             (fun v => { v with is_active := true, expiration_date := some lc.expires_at })
             db.users }) := by
    simp [activate_code, hval, hfind, huser]
  have hfalse : activate_code db now code user_id false =
      (PyResult.exn "Failed to activate license code: commit failed", db) := by
    simp [activate_code, hval, hfind, huser]
  have hc : lc.code = code := by simpa using List.find?_some hfind
  have hu : u.id = user_id := by simpa using List.find?_some huser
  refine ⟨htrue, ?_, ?_, hfalse⟩
  · rw [htrue]
    exact find?_updateFirst (fun c => c.code = code)
      (fun c => { c with is_used := true, used_by := some user_id })
      db.license_codes lc hfind (by simpa using hc)
  · rw [htrue]
    exact find?_updateFirst (fun v => v.id = user_id)
      (fun v => { v with is_active := true, expiration_date := some lc.expires_at })
      db.users u huser (by simpa using hu)

/-- Witness for C1 on a concrete store: the fresh code is redeemed by user 7,
and with a failing commit the store is unchanged. -/
theorem activate_code_atomic_witness :
    dbFresh.license_codes.find? (fun c => c.code = "CODE1") = some lcFresh ∧
    dbFresh.users.find? (fun v => v.id = 7) = some aliceInactive ∧
    (activate_code dbFresh 50 "CODE1" 7 true).1 =
      PyResult.ok (true, "License activated successfully", some lcFresh.expires_at) ∧
    activate_code dbFresh 50 "CODE1" 7 false =
      (PyResult.exn "Failed to activate license code: commit failed", dbFresh) := by
  have h := activate_code_atomic dbFresh 50 "CODE1" 7 lcFresh aliceInactive
    (by decide) (by decide) (by decide) (by decide) (by decide)
  exact ⟨by decide, by decide, by rw [h.1], h.2.2.2⟩

/-- C2: once a license code has `is_used = true`, every later `Activate` call
on it — by any account, with or without a successful commit — returns the
already-used failure and leaves the store unchanged: `Redeemed` is absorbing. -/
theorem activate_code_redeemed_absorbing (db : DB) (now : Int) (code : String)
    (lc : LicenseCode)
    (hfind : db.license_codes.find? (fun c => c.code = code) = some lc)
    (hused : lc.is_used = true) :
    ∀ (user_id : Nat) (commitOk : Bool),
      activate_code db now code user_id commitOk =
        (PyResult.ok (false, "License code already used", none), db) := by
  intro user_id commitOk
  have hval := validate_code_fst_used db now code lc hfind hused
  simp [activate_code, hval]

/-- Witness for C2 on a concrete store: account 9 retries the redeemed code
and observes the already-used failure with the store unchanged. -/
theorem activate_code_redeemed_absorbing_witness :
    dbRedeemed.license_codes.find? (fun c => c.code = "CODE1") = some lcUsed ∧
    lcUsed.is_used = true ∧
    activate_code dbRedeemed 50 "CODE1" 9 true =
      (PyResult.ok (false, "License code already used", none), dbRedeemed) :=
  ⟨by decide, by decide,
    activate_code_redeemed_absorbing dbRedeemed 50 "CODE1" lcUsed (by decide) (by decide) 9 true⟩

/-- C5: an active account with a non-null expiration in the past, on the next
login attempt after successful credential verification, is flipped to
`is_active = false` with `expiration_date` cleared to null, the change is
persisted, and the login is rejected with the needs-reactivation response
(which is distinct from the never-activated rejection). -/
theorem login_lazy_expiry (db : DB) (now : Int) (username password : String)
    (u : User) (e : DT)
    (hfind : db.users.find? (fun v => v.username = username) = some u)
    (hpw : verify_password password u.password = true)
    (hactive : u.is_active = true)
    (hexp : u.expiration_date = some e)
    (hpast : e.t < now) :
    login db now username password =
      (LoginResult.jsonError 403 "Subscription expired. Please renew your license." u.id,
        { db with
          users :=
            updateFirst (fun v => v.username = username)
              (fun v => { v with is_active := false, expiration_date := none })
              db.users }) ∧
    (login db now username password).2.users.find? (fun v => v.username = username) =
      some { u with is_active := false, expiration_date := none } ∧
    (login db now username password).1 ≠
      LoginResult.jsonError 403 "Account not activated. Please enter activation code."
        u.id := by
  have hname : u.username = username := by simpa using List.find?_some hfind
  have hmain : login db now username password =
      (LoginResult.jsonError 403 "Subscription expired. Please renew your license." u.id,
        { db with
          users :=
            updateFirst (fun v => v.username = username)
              (fun v => { v with is_active := false, expiration_date := none })
              db.users }) := by
    simp [login, hfind, hpw, hactive, hexp, DT.pyLt, hpast]
  refine ⟨hmain, ?_, ?_⟩
  · rw [hmain]
    exact find?_updateFirst (fun v => v.username = username)
      (fun v => { v with is_active := false, expiration_date := none })
      db.users u hfind (by simpa using hname)
  · rw [hmain]
    intro hcontra
    injection hcontra with h1 h2 h3
    exact absurd h2 (by decide)

/-- Witness for C5: the stale active account is corrected and rejected at a
concrete login. -/
theorem login_lazy_expiry_witness :
    dbStale.users.find? (fun v => v.username = "alice") = some aliceStale ∧
    aliceStale.is_active = true ∧
    aliceStale.expiration_date = some ⟨10, false⟩ ∧
    (10 : Int) < 50 ∧
    (login dbStale 50 "alice" "pw").2.users.find? (fun v => v.username = "alice") =
      some { aliceStale with is_active := false, expiration_date := none } :=
  ⟨by decide, by decide, by decide, by decide,
    (login_lazy_expiry dbStale 50 "alice" "pw" aliceStale ⟨10, false⟩
      (by decide) (by decide) (by decide) (by decide) (by decide)).2.1⟩

/-- C10: a login attempt against an account with `is_active = false` is
rejected with the needs-activation response carrying the account id, before
the expiration check runs, and mutates nothing — in particular a stale past
`expiration_date` on the inactive account is kept as is. -/
theorem login_inactive_no_mutation (db : DB) (now : Int) (username password : String)
    (u : User)
    (hfind : db.users.find? (fun v => v.username = username) = some u)
    (hpw : verify_password password u.password = true)
    (hinactive : u.is_active = false) :
    login db now username password =
      (LoginResult.jsonError 403 "Account not activated. Please enter activation code." u.id,
        db) ∧
    (login db now username password).2.users.find? (fun v => v.username = username) =
      some u := by
  have hmain : login db now username password =
      (LoginResult.jsonError 403 "Account not activated. Please enter activation code." u.id,
        db) := by
    simp [login, hfind, hpw, hinactive]
  exact ⟨hmain, by rw [hmain]; exact hfind⟩

/-- Witness for C10: the inactive account with a stale past expiration is
rejected at a concrete login and its stale expiration survives unchanged. -/
theorem login_inactive_no_mutation_witness :
    dbInactiveStale.users.find? (fun v => v.username = "alice") = some aliceInactiveStale ∧
    aliceInactiveStale.is_active = false ∧
    aliceInactiveStale.expiration_date = some ⟨10, false⟩ ∧
    (10 : Int) < 50 ∧
    login dbInactiveStale 50 "alice" "pw" =
      (LoginResult.jsonError 403 "Account not activated. Please enter activation code." 7,
        dbInactiveStale) :=
  ⟨by decide, by decide, by decide, by decide,
    (login_inactive_no_mutation dbInactiveStale 50 "alice" "pw" aliceInactiveStale
      (by decide) (by decide) (by decide)).1⟩

/-- C6: once a grant key's `is_used` flag is set, every later redemption
attempt with that key — by any submitted username, at any time — fails with
the already-used condition and leaves the whole store (grant and accounts)
unchanged. -/
theorem verify_license_used_key_rejected (db : DB) (lic : License) (key : String)
    (hfind : db.licenses.find? (fun l => l.key = key) = some lic)
    (hused : lic.is_used = 1) :
    ∀ (now : Int) (username : String),
      verify_license db now username key =
        (VerifyResult.httpError 400 "License key has already been used", db) := by
  intro now username
  simp [verify_license, hfind, hused]

/-- Witness for C6: resubmitting the consumed grant key fails and changes
nothing at a concrete store. -/
theorem verify_license_used_key_rejected_witness :
    dbGrantUsed.licenses.find? (fun l => l.key = "KEY1") = some grantUsed ∧
    grantUsed.is_used = 1 ∧
    verify_license dbGrantUsed 1000 "alice" "KEY1" =
      (VerifyResult.httpError 400 "License key has already been used", dbGrantUsed) :=
  ⟨by decide, by decide,
    verify_license_used_key_rejected dbGrantUsed grantUsed "KEY1"
      (by decide) (by decide) 1000 "alice"⟩

/-- C8: when the submitted code passes validation but the account does not
exist, `Activate` fails with its account-missing outcome, whose message
differs from each of the three invalid-code outcomes (not found, used,
expired), so callers can tell the two failure kinds apart; the route layer
surfaces it as HTTP 400 with that same distinct detail. -/
theorem activate_code_account_missing (db : DB) (now : Int) (code : String)
    (user_id : Nat) (lc : LicenseCode)
    (hfind : db.license_codes.find? (fun c => c.code = code) = some lc)
    (hunused : lc.is_used = false)
    (hnaive : lc.expires_at.aware = false)
    (hunexpired : ¬ lc.expires_at.t < now)
    (hnouser : db.users.find? (fun v => v.id = user_id) = none) :
    ∀ commitOk : Bool,
      activate_code db now code user_id commitOk =
        (PyResult.ok
          (false, "Internal error: License code or user not found after validation.", none),
          db) ∧
      (activate_code db now code user_id commitOk).1 ≠
        PyResult.ok (false, "Invalid license code", none) ∧
      (activate_code db now code user_id commitOk).1 ≠
        PyResult.ok (false, "License code already used", none) ∧
      (activate_code db now code user_id commitOk).1 ≠
        PyResult.ok (false, "License code has expired", none) ∧
      activate_license_code db now code user_id commitOk =
        (RouteResult.httpError 400
          "Internal error: License code or user not found after validation.", db) := by
  intro commitOk
  have hval := validate_code_fst_valid db now code lc hfind hunused hnaive hunexpired
  have hmain : activate_code db now code user_id commitOk =
      (PyResult.ok
        (false, "Internal error: License code or user not found after validation.", none),
        db) := by
    simp [activate_code, hval, hfind, hnouser]
  have hfst : (activate_code db now code user_id commitOk).1 =
      PyResult.ok
        (false, "Internal error: License code or user not found after validation.", none) := by
    rw [hmain]
  refine ⟨hmain, ?_, ?_, ?_, ?_⟩
  · rw [hfst]; decide
  · rw [hfst]; decide
  · rw [hfst]; decide
  · simp [activate_license_code, hmain]

/-- Witness for C8: activating the fresh code for a non-existent account id
fails with the distinct account-missing detail at the route layer. -/
theorem activate_code_account_missing_witness :
    dbNoUser.license_codes.find? (fun c => c.code = "CODE1") = some lcFresh ∧
    dbNoUser.users.find? (fun v => v.id = 7) = none ∧
    activate_license_code dbNoUser 50 "CODE1" 7 true =
      (RouteResult.httpError 400
        "Internal error: License code or user not found after validation.", dbNoUser) :=
  ⟨by decide, by decide,
    (activate_code_account_missing dbNoUser 50 "CODE1" 7 lcFresh
      (by decide) (by decide) (by decide) (by decide) (by decide) true).2.2.2.2⟩

/-- C7 (code evaluation at the failing input): `create_license_code` does not
reject `duration_days = 0`; it persists a code whose `expires_at` equals its
`created_at`, so the invariant `expires_at > created_at` fails. The claimed
non-retryable rejection of `durationDays <= 0` is absent from the code. -/
theorem create_license_code_zero_duration :
    (create_license_code dbEmpty 1000 "ZZZZ" 1 0).1 =
      PyResult.ok { id := 1, code := "ZZZZ", is_used := false,
                    created_at := ⟨1000, false⟩, expires_at := ⟨1000, false⟩,
                    used_by := none } ∧
    ((create_license_code dbEmpty 1000 "ZZZZ" 1 0).2.license_codes.map
      (fun c => decide (c.created_at.t < c.expires_at.t))) = [false] := by
  decide

/-- C9 (code evaluation at the failing input): redemption of a grant key via
`verify_license` persists `user.expiration_date = datetime.now(UTC) +
timedelta(days=duration_days)`, a timezone-AWARE value (the `aware` flag of
the stored timestamp is `true`), breaking the naive-UTC storage convention
that `create_license_code` follows (its stored timestamps carry
`aware = false`). -/
theorem verify_license_stores_aware_expiration :
    (verify_license dbGrant 1000 "alice" "KEY1").1 =
      VerifyResult.success "Account activated successfully" ⟨2593000, true⟩ ∧
    ((verify_license dbGrant 1000 "alice" "KEY1").2.users.map
      (fun v => v.expiration_date)) = [some ⟨2593000, true⟩] ∧
    ((verify_license dbGrant 1000 "alice" "KEY1").2.users.map
      (fun v => v.expiration_date.map DT.aware)) = [some true] ∧
    ((create_license_code dbEmpty 1000 "ZZZZ" 1 30).2.license_codes.map
      (fun c => (c.created_at.aware, c.expires_at.aware))) = [(false, false)] := by
  decide
